import Mathlib

/-!
Verification of the tool-gateway layer of the AI-Research-Content-Assistant
repository: the per-IP fixed-window rate limiter, the request-guard
middleware, the per-tool handlers of src/app/[transport]/route.ts, and the
backend adapters of src/integrations (notion.ts, googdrive.ts and the
github / websearch modules).

Conventions of the shallow embedding:
  * JavaScript timestamps (Date.now(), milliseconds) are Nat; the code only
    ever subtracts an earlier timestamp from a later one, so truncated Nat
    subtraction agrees with the source.
  * headers.get returns string-or-null and is modelled as Option String.
  * JavaScript string truthiness (null and the empty string are falsy) is
    modelled by the function truthy below.
  * values the handlers only pass through JSON.stringify are modelled by
    their serialised string form, since no property depends on their inner
    structure.
-/

namespace Gateway

/-- JavaScript truthiness of a nullable string: null and the empty string
are falsy, every other string is truthy. -/
def truthy : Option String → Bool
  | none => false
  | some s => !(s == "")

/-- The message stored for a caught exception: error.message when that is a
non-empty string, otherwise the String(error) rendering, which for an Error
object with an empty message is the string Error. -/
def jsErrStr (m : String) : String :=
  if m = "" then "Error" else m

/-! ## Rate limiter (route.ts lines 33-54) -/

/-- RATE_LIMIT = 100 requests (route.ts line 35). -/
def RATE_LIMIT : Nat := 100

/-- RATE_LIMIT_WINDOW = 60 * 1000 milliseconds (route.ts line 36). -/
def RATE_LIMIT_WINDOW : Nat := 60 * 1000

/-- One value of rateLimitMap: the requests counted so far in the current
window and the window start timestamp. -/
structure RateEntry where
  count : Nat
  start : Nat
deriving DecidableEq, Repr

/-- The in-memory rateLimitMap, keyed by the client IP string. -/
def RateState : Type := String → Option RateEntry

/-- The map is empty at process start. -/
def emptyRateState : RateState := fun _ => none

/-- rateLimitMap.set for one key. -/
def setEntry (st : RateState) (ip : String) (e : RateEntry) : RateState :=
  fun k => if k = ip then some e else st k

/-- The rateLimit function of route.ts lines 38-54: returns true when the
call is rate limited, plus the map after the call. First sight of an ip
creates an entry with count 1; a call past the window resets the entry; a
call inside the window with count at or above RATE_LIMIT is limited without
touching the map; otherwise the count is incremented. -/
def rateLimit (st : RateState) (ip : String) (now : Nat) : Bool × RateState :=
  match st ip with
  | none => (false, setEntry st ip ⟨1, now⟩)
  | some entry =>
    if now - entry.start > RATE_LIMIT_WINDOW then
      (false, setEntry st ip ⟨1, now⟩)
    else if entry.count ≥ RATE_LIMIT then
      (true, st)
    else
      (false, setEntry st ip ⟨entry.count + 1, entry.start⟩)

/-- One inbound call as the rate limiter sees it: the client key and the
Date.now() timestamp at which the call arrives. -/
structure RLCall where
  ip : String
  time : Nat
deriving DecidableEq, Repr

/-- Run the rate limiter over a sequence of calls: the list of per-call
results (true = limited) and the final map. -/
def rateLimitRun (st : RateState) : List RLCall → List Bool × RateState
  | [] => ([], st)
  | c :: tr =>
    let r := rateLimit st c.ip c.time
    let rest := rateLimitRun r.2 tr
    (r.1 :: rest.1, rest.2)

/-- Times along a trace never decrease (Date.now() is monotone within a
process). -/
def timesMono (tr : List RLCall) : Prop :=
  tr.Pairwise (fun a b => a.time ≤ b.time)

/-- How many calls of client k the trace contains inside the closed
60-second window starting at t0. -/
def windowCalls (k : String) (t0 : Nat) (tr : List RLCall) : Nat :=
  tr.countP (fun c => decide (c.ip = k ∧ t0 ≤ c.time ∧ c.time ≤ t0 + RATE_LIMIT_WINDOW))

/-- Every entry of the map respects the limit. -/
def countBounded (st : RateState) : Prop :=
  ∀ k e, st k = some e → e.count ≤ RATE_LIMIT

/-! ## Request-guard middleware (route.ts lines 56-95) -/

/-- ALLOWED_ORIGINS of route.ts lines 57-60. -/
def ALLOWED_ORIGINS : List String :=
  ["https://your-trusted-origin.com", "http://localhost:3000"]

/-- VALID_API_KEYS of route.ts line 63: the one-element array holding
process.env.ALLOWED_API_KEY, which is undefined (none) when the variable is
unset. -/
def VALID_API_KEYS (allowedApiKey : Option String) : List (Option String) :=
  [allowedApiKey]

/-- The headers of an inbound request that the middleware reads; a missing
header is none, matching headers.get returning null. -/
structure MwRequest where
  xForwardedProto : Option String
  xApiKey : Option String
  xForwardedFor : Option String
  origin : Option String
deriving DecidableEq, Repr

/-- What the middleware returns: NextResponse.next() (pass on to the
handler) or an early NextResponse with a body and a status code. -/
inductive MwResult where
  | next : MwResult
  | response (body : String) (status : Nat) : MwResult
deriving DecidableEq, Repr

/-- The client key the rate limiter is called with: the x-forwarded-for
header, with null or the empty string replaced by the shared unknown
bucket (route.ts line 78). -/
def clientIp (xForwardedFor : Option String) : String :=
  match xForwardedFor with
  | none => "unknown"
  | some s => if s = "" then "unknown" else s

/-- The middleware of route.ts lines 65-95, with the rate-limiter map
passed and returned explicitly. Checks run in source order: transport
(403), API key (401), rate limit (429), origin (403); the first failing
check returns at once, so a request rejected before the rate-limit step
leaves the map untouched. -/
def middleware (allowedApiKey : Option String) (st : RateState) (now : Nat)
    (req : MwRequest) : MwResult × RateState :=
  if req.xForwardedProto ≠ some "https" then
    (.response "HTTPS required" 403, st)
  else if !(truthy req.xApiKey) || !((VALID_API_KEYS allowedApiKey).contains req.xApiKey) then
    (.response "Unauthorized" 401, st)
  else
    let r := rateLimit st (clientIp req.xForwardedFor) now
    if r.1 then
      (.response "Too Many Requests" 429, r.2)
    else if truthy req.origin && !(ALLOWED_ORIGINS.contains (req.origin.getD "")) then
      (.response "CORS not allowed" 403, r.2)
    else
      (.next, r.2)

/-! ## The uniform response envelope -/

/-- A content block is always of kind text, so a block is modelled by its
text; ToolResult is the envelope a handler returns: the ordered content
blocks and the optional pagination cursor. -/
structure ToolResult where
  content : List String
  nextCursor : Option String := none
deriving DecidableEq, Repr

/-- JSON.stringify of an array whose elements are modelled by their
serialised forms. -/
def jsonArr (xs : List String) : String :=
  "[" ++ String.intercalate "," xs ++ "]"

/-- Template rendering of a JSON.stringify result that may be undefined. -/
def jsonOpt (o : Option String) : String :=
  match o with
  | some s => s
  | none => "undefined"

/-- The String() rendering of a possibly-undefined string field. -/
def jsString (o : Option String) : String :=
  o.getD "undefined"

/-- JavaScript template rendering of a boolean. -/
def jsBool (b : Bool) : String :=
  if b then "true" else "false"

/-! ## Notion adapters (src/integrations/notion.ts)

Every adapter takes the outcome of its external Notion SDK call as an
Except: ok carries the fields the adapter reads, error the message of the
exception the call threw. -/

/-- One property object of a page, restricted to the fields the code reads:
its type tag and, for a title property, the plain_text fragments of its
title array. -/
structure NotionProperty where
  type : String
  title : List String
deriving DecidableEq, Repr

/-- A retrieved page: its properties when the response carries them
(the properties-in-page check of notion.ts line 16). -/
structure NotionPage where
  properties : Option (List NotionProperty)
deriving DecidableEq, Repr

/-- One child block: its type tag and, for a paragraph, the plain_text
fragments of paragraph.rich_text. -/
structure NotionBlock where
  type : String
  rich_text : List String
deriving DecidableEq, Repr

/-- Title extraction of notion.ts lines 15-21: the first title-typed
property with a non-empty title array, joined; Untitled otherwise. -/
def notionPageTitle (page : NotionPage) : String :=
  match page.properties with
  | none => "Untitled"
  | some props =>
    match props.find? (fun p => p.type == "title") with
    | none => "Untitled"
    | some p => if p.title.length > 0 then String.join p.title else "Untitled"

/-- One mapped block of notion.ts lines 26-31: paragraph text, or the empty
string for every other block. -/
def notionBlockText (b : NotionBlock) : String :=
  if b.type == "paragraph" && b.rich_text.length > 0 then String.join b.rich_text else ""

/-- Body assembly of notion.ts lines 25-33: map, drop falsy entries, join
with newlines. -/
def notionBody (blocks : List NotionBlock) : String :=
  String.intercalate "\n" ((blocks.map notionBlockText).filter (fun s => !(s == "")))

/-- The normalized content shape of contentModel.ts, restricted to the
fields the Notion Fetch tool renders (source is the constant notion;
metadata is never read by the handler). -/
structure NormalizedContent where
  title : String
  body : String
  source : String
deriving DecidableEq, Repr

/-- fetchNotionContent of notion.ts lines 12-51: a failing page retrieval
is folded into the normalized shape with the fixed title
Error fetching Notion page and the raw failure message as the body; a
failing block listing only replaces the body. -/
def fetchNotionContent (pageResp : Except String NotionPage)
    (blocksResp : Except String (List NotionBlock)) : NormalizedContent :=
  match pageResp with
  | .error m =>
    { title := "Error fetching Notion page", body := jsErrStr m, source := "notion" }
  | .ok page =>
    { title := notionPageTitle page
    , body :=
        match blocksResp with
        | .error _ => "(Unable to fetch page content blocks)"
        | .ok blocks => notionBody blocks
    , source := "notion" }

/-- The Notion Fetch tool handler (route.ts lines 99-112): always two
content blocks, the title and the body. -/
def notionFetchHandler (data : NormalizedContent) : ToolResult :=
  { content := [data.title, data.body] }

/-- One search hit of the database search, restricted to what the code
reads: the id and the title array (none when the object has no title). -/
structure NotionDbHit where
  id : String
  title : Option (List String)
deriving DecidableEq, Repr

/-- Title of one database hit (notion.ts lines 62-65). -/
def notionDbTitle (db : NotionDbHit) : String :=
  match db.title with
  | none => "Untitled"
  | some ts => if ts.length > 0 then String.join ts else "Untitled"

/-- listNotionDatabases of notion.ts lines 57-72: a thrown search error is
swallowed and yields the empty list. -/
def listNotionDatabases (resp : Except String (List NotionDbHit)) :
    List (String × String) :=
  match resp with
  | .error _ => []
  | .ok dbs => dbs.map (fun db => (db.id, notionDbTitle db))

/-- The Notion List Databases tool handler (route.ts lines 113-123): one
block per database, of the form id: title. -/
def notionListDatabasesHandler (databases : List (String × String)) : ToolResult :=
  { content := databases.map (fun db => db.1 ++ ": " ++ db.2) }

/-- A database query response, restricted to the fields the adapter reads;
result entries are modelled by their serialised forms. -/
structure NotionQueryResponse where
  results : List String
  has_more : Bool
  next_cursor : Option String
deriving DecidableEq, Repr

/-- The return shape of listNotionDatabaseEntries and queryNotionDatabase:
results plus optional cursor, or an error message. -/
structure NotionEntriesResult where
  results : List String
  nextCursor : Option String
  error : Option String
deriving DecidableEq, Repr

/-- listNotionDatabaseEntries of notion.ts lines 84-95: nextCursor is
next_cursor when has_more and next_cursor are both truthy, undefined
otherwise. -/
def listNotionDatabaseEntries (resp : Except String NotionQueryResponse) :
    NotionEntriesResult :=
  match resp with
  | .ok r =>
    { results := r.results
    , nextCursor := if r.has_more && truthy r.next_cursor then r.next_cursor else none
    , error := none }
  | .error m => { results := [], nextCursor := none, error := some (jsErrStr m) }

/-- queryNotionDatabase of notion.ts lines 108-121: same result shaping as
listNotionDatabaseEntries. -/
def queryNotionDatabase (resp : Except String NotionQueryResponse) :
    NotionEntriesResult :=
  match resp with
  | .ok r =>
    { results := r.results
    , nextCursor := if r.has_more && truthy r.next_cursor then r.next_cursor else none
    , error := none }
  | .error m => { results := [], nextCursor := none, error := some (jsErrStr m) }

/-- The Notion List Database Entries tool handler (route.ts lines 124-142):
a truthy error field becomes a single Error block; otherwise one block per
entry (each already serialised) and the cursor passed through unchanged. -/
def notionListEntriesHandler (result : NotionEntriesResult) : ToolResult :=
  if truthy result.error then
    { content := ["Error: " ++ result.error.getD ""] }
  else
    { content := result.results, nextCursor := result.nextCursor }

/-- The Notion Query Database tool handler (route.ts lines 143-163): same
shaping as the entries handler. -/
def notionQueryHandler (result : NotionEntriesResult) : ToolResult :=
  if truthy result.error then
    { content := ["Error: " ++ result.error.getD ""] }
  else
    { content := result.results, nextCursor := result.nextCursor }

/-- The return shape of fetchNotionPageContent: the serialised properties
(none when the page carries none), the serialised child blocks, or an
error message. -/
structure NotionPageContentResult where
  properties : Option String
  blocks : List String
  error : Option String
deriving DecidableEq, Repr

/-- fetchNotionPageContent of notion.ts lines 131-147: a failing block
fetch is ignored and leaves blocks empty; a failing page retrieval is the
error shape. -/
def fetchNotionPageContent (pageResp : Except String (Option String))
    (blocksResp : Except String (List String)) : NotionPageContentResult :=
  match pageResp with
  | .ok props =>
    { properties := props
    , blocks := match blocksResp with | .ok bs => bs | .error _ => []
    , error := none }
  | .error m => { properties := none, blocks := [], error := some (jsErrStr m) }

/-- The Notion Fetch Page Content tool handler (route.ts lines 164-182). -/
def notionFetchPageContentHandler (result : NotionPageContentResult) : ToolResult :=
  if truthy result.error then
    { content := ["Error: " ++ result.error.getD ""] }
  else
    { content := ["Properties: " ++ jsonOpt result.properties
                 , "Blocks: " ++ jsonArr result.blocks] }

/-- The return shape of getNotionDatabaseSchema. -/
structure NotionSchemaResult where
  properties : Option String
  error : Option String
deriving DecidableEq, Repr

/-- getNotionDatabaseSchema of notion.ts lines 156-165. -/
def getNotionDatabaseSchema (dbResp : Except String (Option String)) :
    NotionSchemaResult :=
  match dbResp with
  | .ok props => { properties := props, error := none }
  | .error m => { properties := none, error := some (jsErrStr m) }

/-- The Notion Get Database Schema tool handler (route.ts lines 183-200). -/
def notionGetSchemaHandler (result : NotionSchemaResult) : ToolResult :=
  if truthy result.error then
    { content := ["Error: " ++ result.error.getD ""] }
  else
    { content := ["Schema: " ++ jsonOpt result.properties] }

/-! ## Google Drive / Docs adapters (src/integrations/googdrive.ts)

Each adapter wraps its Drive SDK call outcome into either a plain success
value or an object with an error field; the union is an Except whose error
constructor is the error-field convention. -/

/-- A raw file object of a drive.files.list response, restricted to the
fields the code reads; each may be missing. -/
structure DriveFileRaw where
  id : Option String
  name : Option String
  mimeType : Option String
deriving DecidableEq, Repr

/-- An id-name pair as listGoogleDocs returns it. -/
structure DriveDoc where
  id : String
  name : String
deriving DecidableEq, Repr

/-- A file entry with mime type as listDriveFiles returns it (the parents
field is never read by a handler and is omitted). -/
structure DriveFile where
  id : String
  name : String
  mimeType : String
deriving DecidableEq, Repr

/-- listGoogleDocs of googdrive.ts lines 23-36: keep the files whose id and
name are both truthy. -/
def listGoogleDocs (resp : Except String (List DriveFileRaw)) :
    Except String (List DriveDoc) :=
  match resp with
  | .ok files =>
    .ok ((files.filter (fun f => truthy f.id && truthy f.name)).map
      (fun f => { id := f.id.getD "", name := f.name.getD "" }))
  | .error m => .error (jsErrStr m)

/-- searchGoogleDocs of googdrive.ts lines 43-56: same shaping as
listGoogleDocs. -/
def searchGoogleDocs (resp : Except String (List DriveFileRaw)) :
    Except String (List DriveDoc) :=
  match resp with
  | .ok files =>
    .ok ((files.filter (fun f => truthy f.id && truthy f.name)).map
      (fun f => { id := f.id.getD "", name := f.name.getD "" }))
  | .error m => .error (jsErrStr m)

/-- fetchGoogleDocMetadata of googdrive.ts lines 63-78. -/
def fetchGoogleDocMetadata (resp : Except String DriveFileRaw) :
    Except String DriveFile :=
  match resp with
  | .ok d =>
    if truthy d.id && truthy d.name && truthy d.mimeType then
      .ok { id := d.id.getD "", name := d.name.getD "", mimeType := d.mimeType.getD "" }
    else
      .error "File not found or missing metadata."
  | .error m => .error (jsErrStr m)

/-- exportGoogleDocAsText of googdrive.ts lines 85-97. -/
def exportGoogleDocAsText (resp : Except String String) : Except String String :=
  match resp with
  | .ok c => .ok c
  | .error m => .error (jsErrStr m)

/-- listDriveFiles of googdrive.ts lines 104-120: every listed file is
mapped through String() on each field (undefined renders as undefined). -/
def listDriveFiles (resp : Except String (List DriveFileRaw)) :
    Except String (List DriveFile) :=
  match resp with
  | .ok files =>
    .ok (files.map (fun f =>
      { id := jsString f.id, name := jsString f.name, mimeType := jsString f.mimeType }))
  | .error m => .error (jsErrStr m)

/-- searchDriveFiles of googdrive.ts lines 127-140: same mapping as
listDriveFiles. -/
def searchDriveFiles (resp : Except String (List DriveFileRaw)) :
    Except String (List DriveFile) :=
  match resp with
  | .ok files =>
    .ok (files.map (fun f =>
      { id := jsString f.id, name := jsString f.name, mimeType := jsString f.mimeType }))
  | .error m => .error (jsErrStr m)

/-- getDriveFileMetadata of googdrive.ts lines 147-158: the raw response
data (modelled by its serialised form) or the error shape. -/
def getDriveFileMetadata (resp : Except String String) : Except String String :=
  match resp with
  | .ok d => .ok d
  | .error m => .error (jsErrStr m)

/-- downloadDriveFile of googdrive.ts lines 166-181: the downloaded content
may itself be absent. -/
def downloadDriveFile (resp : Except String (Option String)) :
    Except String (Option String) :=
  match resp with
  | .ok c => .ok c
  | .error m => .error (jsErrStr m)

/-- createDriveFile of googdrive.ts lines 188-209. -/
def createDriveFile (resp : Except String String) : Except String String :=
  match resp with
  | .ok d => .ok d
  | .error m => .error (jsErrStr m)

/-- updateDriveFile of googdrive.ts lines 217-238. -/
def updateDriveFile (resp : Except String String) : Except String String :=
  match resp with
  | .ok d => .ok d
  | .error m => .error (jsErrStr m)

/-- deleteDriveFile of googdrive.ts lines 245-253: success is the constant
true. -/
def deleteDriveFile (resp : Except String Unit) : Except String Bool :=
  match resp with
  | .ok _ => .ok true
  | .error m => .error (jsErrStr m)

/-- listDriveFolders of googdrive.ts lines 259-272. -/
def listDriveFolders (resp : Except String (List DriveFileRaw)) :
    Except String (List DriveDoc) :=
  match resp with
  | .ok files =>
    .ok (files.map (fun f => { id := jsString f.id, name := jsString f.name }))
  | .error m => .error (jsErrStr m)

/-- shareDriveFile of googdrive.ts lines 280-296: one created permission
object (serialised) per requested permission. -/
def shareDriveFile (resp : Except String (List String)) :
    Except String (List String) :=
  match resp with
  | .ok results => .ok results
  | .error m => .error (jsErrStr m)

/-- listDriveFileRevisions of googdrive.ts lines 303-311: the revisions
array of the response, which may be absent. -/
def listDriveFileRevisions (resp : Except String (Option String)) :
    Except String (Option String) :=
  match resp with
  | .ok revs => .ok revs
  | .error m => .error (jsErrStr m)

/-- copyDriveFile of the googdrive module: the copied file metadata,
restricted to the fields the handler renders. -/
def copyDriveFile (resp : Except String DriveFile) : Except String DriveFile :=
  match resp with
  | .ok d => .ok d
  | .error m => .error (jsErrStr m)

/-- The return shape of updateGoogleDocContent: success true, or the error
shape in which no success field is present. -/
structure UpdateDocResult where
  success : Option Bool
  error : Option String
deriving DecidableEq, Repr

/-- updateGoogleDocContent of the googdrive module: success true when the
batchUpdate call went through, the error shape when any step threw. -/
def updateGoogleDocContent (resp : Except String Unit) : UpdateDocResult :=
  match resp with
  | .ok _ => { success := some true, error := none }
  | .error m => { success := none, error := some (jsErrStr m) }

/-! ## Drive / Docs tool handlers (route.ts lines 201-432) -/

/-- The Googdrive List Docs tool handler (route.ts lines 201-214). -/
def googdriveListDocsHandler (result : Except String (List DriveDoc)) : ToolResult :=
  match result with
  | .error m => { content := ["Error: " ++ m] }
  | .ok docs => { content := docs.map (fun doc => doc.id ++ ": " ++ doc.name) }

/-- The Googdrive Search Docs tool handler (route.ts lines 215-230). -/
def googdriveSearchDocsHandler (result : Except String (List DriveDoc)) : ToolResult :=
  match result with
  | .error m => { content := ["Error: " ++ m] }
  | .ok docs => { content := docs.map (fun doc => doc.id ++ ": " ++ doc.name) }

/-- The Googdrive Doc Metadata tool handler (route.ts lines 231-250). -/
def googdriveDocMetadataHandler (result : Except String DriveFile) : ToolResult :=
  match result with
  | .error m => { content := ["Error: " ++ m] }
  | .ok r =>
    { content := ["ID: " ++ r.id, "Name: " ++ r.name, "MimeType: " ++ r.mimeType] }

/-- The Googdrive Export Doc As Text tool handler (route.ts lines 251-268). -/
def googdriveExportTextHandler (result : Except String String) : ToolResult :=
  match result with
  | .error m => { content := ["Error: " ++ m] }
  | .ok c => { content := [c] }

/-- The Google Drive List Files tool handler (route.ts lines 269-282). -/
def driveListFilesHandler (result : Except String (List DriveFile)) : ToolResult :=
  match result with
  | .error m => { content := ["Error: " ++ m] }
  | .ok files =>
    { content := files.map (fun f => f.id ++ ": " ++ f.name ++ " (" ++ f.mimeType ++ ")") }

/-- The Google Drive Search Files tool handler (route.ts lines 283-292). -/
def driveSearchFilesHandler (result : Except String (List DriveFile)) : ToolResult :=
  match result with
  | .error m => { content := ["Error: " ++ m] }
  | .ok files =>
    { content := files.map (fun f => f.id ++ ": " ++ f.name ++ " (" ++ f.mimeType ++ ")") }

/-- The Google Drive Get Metadata tool handler (route.ts lines 293-302). -/
def driveGetMetadataHandler (result : Except String String) : ToolResult :=
  match result with
  | .error m => { content := ["Error: " ++ m] }
  | .ok d => { content := [d] }

/-- The Google Drive Download File tool handler (route.ts lines 303-316). -/
def driveDownloadFileHandler (result : Except String (Option String)) : ToolResult :=
  match result with
  | .error m => { content := ["Error: " ++ m] }
  | .ok c =>
    { content := ["File content fetched (length: "
        ++ toString (match c with | some s => s.length | none => 0) ++ ")"] }

/-- The Google Drive Create File tool handler (route.ts lines 317-331). -/
def driveCreateFileHandler (result : Except String String) : ToolResult :=
  match result with
  | .error m => { content := ["Error: " ++ m] }
  | .ok d => { content := [d] }

/-- The Google Drive Update File tool handler (route.ts lines 332-348). -/
def driveUpdateFileHandler (result : Except String String) : ToolResult :=
  match result with
  | .error m => { content := ["Error: " ++ m] }
  | .ok d => { content := [d] }

/-- The Google Drive Delete File tool handler (route.ts lines 349-358). -/
def driveDeleteFileHandler (result : Except String Bool) : ToolResult :=
  match result with
  | .error m => { content := ["Error: " ++ m] }
  | .ok success => { content := ["Success: " ++ jsBool success] }

/-- The Google Drive List Folders tool handler (route.ts lines 359-368). -/
def driveListFoldersHandler (result : Except String (List DriveDoc)) : ToolResult :=
  match result with
  | .error m => { content := ["Error: " ++ m] }
  | .ok folders => { content := folders.map (fun f => f.id ++ ": " ++ f.name) }

/-- The Google Drive Share File tool handler (route.ts lines 369-385). -/
def driveShareFileHandler (result : Except String (List String)) : ToolResult :=
  match result with
  | .error m => { content := ["Error: " ++ m] }
  | .ok results => { content := [jsonArr results] }

/-- The Google Drive List Revisions tool handler (route.ts lines 386-395). -/
def driveListRevisionsHandler (result : Except String (Option String)) : ToolResult :=
  match result with
  | .error m => { content := ["Error: " ++ m] }
  | .ok revs => { content := [jsonOpt revs] }

/-- The Googdrive Copy File tool handler (route.ts lines 396-417). -/
def googdriveCopyFileHandler (result : Except String DriveFile) : ToolResult :=
  match result with
  | .error m => { content := ["Error: " ++ m] }
  | .ok r =>
    { content := ["Copied file ID: " ++ r.id, "Name: " ++ r.name
                 , "MimeType: " ++ r.mimeType] }

/-- The Googdocs Update Content tool handler (route.ts lines 418-432):
anything but success true renders the error field, with Unknown error as
the fallback for a falsy one. -/
def googdocsUpdateContentHandler (docId : String) (result : UpdateDocResult) : ToolResult :=
  if result.success = some true then
    { content := ["Success: content updated for doc " ++ docId] }
  else
    { content := ["Error: "
        ++ (if truthy result.error then result.error.getD "" else "Unknown error")] }

/-! ## GitHub and web-search handlers (route.ts lines 433-510)

These adapters throw on failure; each handler wraps its call in try/catch
and renders the caught message. A handler input is therefore the Except of
the adapter call itself, error carrying the raw e.message. -/

/-- One repository as listGithubRepos returns it, restricted to the fields
the handler renders (a null description renders as null and is modelled by
its rendering). -/
structure GithubRepo where
  full_name : String
  description : String
deriving DecidableEq, Repr

/-- The GitHub List Repos tool handler (route.ts lines 433-447). -/
def githubListReposHandler (result : Except String (List GithubRepo)) : ToolResult :=
  match result with
  | .error m => { content := ["Error: " ++ m] }
  | .ok repos => { content := repos.map (fun repo => repo.full_name ++ ": " ++ repo.description) }

/-- The GitHub Fetch README tool handler (route.ts lines 448-463). -/
def githubReadmeHandler (result : Except String String) : ToolResult :=
  match result with
  | .error m => { content := ["Error: " ++ m] }
  | .ok readme => { content := [readme] }

/-- The GitHub Fetch File tool handler (route.ts lines 464-480). -/
def githubFileHandler (result : Except String String) : ToolResult :=
  match result with
  | .error m => { content := ["Error: " ++ m] }
  | .ok file => { content := [file] }

/-- One organic search result, restricted to the rendered fields. -/
structure SearchResult where
  title : String
  link : String
  snippet : String
deriving DecidableEq, Repr

/-- webSearch of the websearch module: the organic_results array mapped to
title/link/snippet, with a missing array falling back to the empty list; a
thrown transport error propagates to the caller uncaught. -/
def webSearch (resp : Except String (Option (List SearchResult))) :
    Except String (List SearchResult) :=
  match resp with
  | .ok (some rs) => .ok rs
  | .ok none => .ok []
  | .error m => .error m

/-- searchCompanyCulture of the websearch module: delegates to webSearch on
the derived query. -/
def searchCompanyCulture (resp : Except String (Option (List SearchResult))) :
    Except String (List SearchResult) :=
  webSearch resp

/-- The Web Search tool handler (route.ts lines 481-495): one block per
result, title, link and snippet on separate lines. -/
def webSearchHandler (result : Except String (List SearchResult)) : ToolResult :=
  match result with
  | .error m => { content := ["Error: " ++ m] }
  | .ok results =>
    { content := results.map (fun r => r.title ++ "\n" ++ r.link ++ "\n" ++ r.snippet) }

/-- The Search Company Culture tool handler (route.ts lines 496-510). -/
def searchCompanyCultureHandler (result : Except String (List SearchResult)) : ToolResult :=
  match result with
  | .error m => { content := ["Error: " ++ m] }
  | .ok results =>
    { content := results.map (fun r => r.title ++ "\n" ++ r.link ++ "\n" ++ r.snippet) }

/-! ## The tool registry and the dispatch step -/

/-- The names registered with server.tool in route.ts lines 97-520, in
registration order. -/
def toolNames : List String :=
  [ "Notion Fetch"
  , "Notion List Databases"
  , "Notion List Database Entries"
  , "Notion Query Database"
  , "Notion Fetch Page Content"
  , "Notion Get Database Schema"
  , "Googdrive List Docs"
  , "Googdrive Search Docs"
  , "Googdrive Doc Metadata"
  , "Googdrive Export Doc As Text"
  , "Google Drive List Files"
  , "Google Drive Search Files"
  , "Google Drive Get Metadata"
  , "Google Drive Download File"
  , "Google Drive Create File"
  , "Google Drive Update File"
  , "Google Drive Delete File"
  , "Google Drive List Folders"
  , "Google Drive Share File"
  , "Google Drive List Revisions"
  , "Googdrive Copy File"
  , "Googdocs Update Content"
  , "GitHub List Repos"
  , "GitHub Fetch README"
  , "GitHub Fetch File"
  , "Web Search"
  , "Search Company Culture" ]

/-- An HTTP-level tool response: the status code and the envelope. -/
structure HttpToolResponse where
  status : Nat
  result : ToolResult
deriving DecidableEq, Repr

/-- Modelled from the spec: the dispatch step of createMcpHandler (the
vercel mcp-adapter package, whose source is not part of this repository;
route.ts only registers tools with it). Per spec sections 4.3 and 6, a
registered name invokes its handler and the protocol returns HTTP success,
and an unregistered name is surfaced as a content block, not a transport
error: a 200 response whose sole block text is Error: followed by a message
naming the unknown tool. -/
def dispatch (invocationName : String) (run : String → ToolResult) : HttpToolResponse :=
  if toolNames.contains invocationName then
    { status := 200, result := run invocationName }
  else
    { status := 200
    , result := { content := ["Error: " ++ ("Unknown tool: " ++ invocationName)] } }

/-- For each registered tool whose handler guards the adapter error shape
or wraps the adapter call in try/catch — every tool except Notion Fetch
(whose adapter folds failures into a normal content shape) and Notion List
Databases (whose adapter swallows failures into an empty list) — the
composition of an adapter-level failure with thrown message m and the
handler of that tool. The Googdocs Update Content handler is applied at a
fixed document id, which its failure branch never reads. -/
def failureRenderings : List (String → ToolResult) :=
  [ fun m => notionListEntriesHandler (listNotionDatabaseEntries (.error m))
  , fun m => notionQueryHandler (queryNotionDatabase (.error m))
  , fun m => notionFetchPageContentHandler (fetchNotionPageContent (.error m) (.ok []))
  , fun m => notionGetSchemaHandler (getNotionDatabaseSchema (.error m))
  , fun m => googdriveListDocsHandler (listGoogleDocs (.error m))
  , fun m => googdriveSearchDocsHandler (searchGoogleDocs (.error m))
  , fun m => googdriveDocMetadataHandler (fetchGoogleDocMetadata (.error m))
  , fun m => googdriveExportTextHandler (exportGoogleDocAsText (.error m))
  , fun m => driveListFilesHandler (listDriveFiles (.error m))
  , fun m => driveSearchFilesHandler (searchDriveFiles (.error m))
  , fun m => driveGetMetadataHandler (getDriveFileMetadata (.error m))
  , fun m => driveDownloadFileHandler (downloadDriveFile (.error m))
  , fun m => driveCreateFileHandler (createDriveFile (.error m))
  , fun m => driveUpdateFileHandler (updateDriveFile (.error m))
  , fun m => driveDeleteFileHandler (deleteDriveFile (.error m))
  , fun m => driveListFoldersHandler (listDriveFolders (.error m))
  , fun m => driveShareFileHandler (shareDriveFile (.error m))
  , fun m => driveListRevisionsHandler (listDriveFileRevisions (.error m))
  , fun m => googdriveCopyFileHandler (copyDriveFile (.error m))
  , fun m => googdocsUpdateContentHandler "doc-1" (updateGoogleDocContent (.error m))
  , fun m => githubListReposHandler (.error m)
  , fun m => githubReadmeHandler (.error m)
  , fun m => githubFileHandler (.error m)
  , fun m => webSearchHandler (webSearch (.error m))
  , fun m => searchCompanyCultureHandler (searchCompanyCulture (.error m)) ]

/-! ## Invariants used by the rate-limiter proofs -/

/-- Per-client budget invariant tying the map entry of one client k to the
calls still to come: the count of the k entry plus the pending k calls
falling inside its window stays within the limit. Entries of other clients
are unconstrained. -/
def goodStateFor (k : String) (st : RateState) (tr : List RLCall) : Prop :=
  ∀ e, st k = some e →
    e.count + tr.countP (fun c => decide (c.ip = k ∧ c.time ≤ e.start + RATE_LIMIT_WINDOW))
      ≤ RATE_LIMIT

/-- The run results that belong to client k: the per-call booleans of a run
paired with their calls, restricted to the calls of k, in call order. -/
def resultsFor (k : String) (tr : List RLCall) (results : List Bool) : List Bool :=
  ((tr.zip results).filter (fun p => p.1.ip == k)).map (fun p => p.2)

theorem rateLimit_eq_new (st : RateState) (ip : String) (now : Nat)
    (h : st ip = none) :
    rateLimit st ip now = (false, setEntry st ip ⟨1, now⟩) := by
  simp only [rateLimit, h]

theorem rateLimit_eq_reset (st : RateState) (ip : String) (now : Nat) (entry : RateEntry)
    (h : st ip = some entry) (hw : now - entry.start > RATE_LIMIT_WINDOW) :
    rateLimit st ip now = (false, setEntry st ip ⟨1, now⟩) := by
  simp only [rateLimit, h, if_pos hw]

theorem rateLimit_eq_limited (st : RateState) (ip : String) (now : Nat) (entry : RateEntry)
    (h : st ip = some entry) (hw : ¬ now - entry.start > RATE_LIMIT_WINDOW)
    (hc : entry.count ≥ RATE_LIMIT) :
    rateLimit st ip now = (true, st) := by
  simp only [rateLimit, h, if_neg hw, if_pos hc]

theorem rateLimit_eq_incr (st : RateState) (ip : String) (now : Nat) (entry : RateEntry)
    (h : st ip = some entry) (hw : ¬ now - entry.start > RATE_LIMIT_WINDOW)
    (hc : ¬ entry.count ≥ RATE_LIMIT) :
    rateLimit st ip now = (false, setEntry st ip ⟨entry.count + 1, entry.start⟩) := by
  simp only [rateLimit, h, if_neg hw, if_neg hc]

theorem setEntry_preserves_countBounded (st : RateState) (ip : String) (e : RateEntry)
    (h : countBounded st) (he : e.count ≤ RATE_LIMIT) :
    countBounded (setEntry st ip e) := by
  intro k e2 hk
  unfold setEntry at hk
  by_cases hki : k = ip
  · rw [if_pos hki, Option.some_inj] at hk
    rw [← hk]
    exact he
  · rw [if_neg hki] at hk
    exact h k e2 hk

theorem rateLimit_preserves_countBounded (st : RateState) (ip : String) (now : Nat)
    (h : countBounded st) : countBounded (rateLimit st ip now).2 := by
  cases hst : st ip with
  | none =>
    rw [rateLimit_eq_new st ip now hst]
    exact setEntry_preserves_countBounded st ip _ h (by show 1 ≤ RATE_LIMIT; decide)
  | some entry =>
    by_cases hw : now - entry.start > RATE_LIMIT_WINDOW
    · rw [rateLimit_eq_reset st ip now entry hst hw]
      exact setEntry_preserves_countBounded st ip _ h (by show 1 ≤ RATE_LIMIT; decide)
    · by_cases hc : entry.count ≥ RATE_LIMIT
      · rw [rateLimit_eq_limited st ip now entry hst hw hc]
        exact h
      · rw [rateLimit_eq_incr st ip now entry hst hw hc]
        exact setEntry_preserves_countBounded st ip _ h (by show entry.count + 1 ≤ RATE_LIMIT; omega)

theorem rateLimitRun_preserves_countBounded (tr : List RLCall) (st : RateState)
    (h : countBounded st) : countBounded (rateLimitRun st tr).2 := by
  induction tr generalizing st with
  | nil => exact h
  | cons c tr ih =>
    exact ih _ (rateLimit_preserves_countBounded st c.ip c.time h)

theorem rateLimitRun_cons (st : RateState) (c : RLCall) (tr : List RLCall) :
    rateLimitRun st (c :: tr) =
      ((rateLimit st c.ip c.time).1 :: (rateLimitRun (rateLimit st c.ip c.time).2 tr).1,
       (rateLimitRun (rateLimit st c.ip c.time).2 tr).2) := rfl

theorem rateLimitRun_append (st : RateState) (l1 l2 : List RLCall) :
    rateLimitRun st (l1 ++ l2) =
      ((rateLimitRun st l1).1 ++ (rateLimitRun (rateLimitRun st l1).2 l2).1,
       (rateLimitRun (rateLimitRun st l1).2 l2).2) := by
  induction l1 generalizing st with
  | nil => simp [rateLimitRun]
  | cons c l1 ih =>
    simp only [List.cons_append, rateLimitRun_cons, ih, List.cons.injEq]

theorem setEntry_self (st : RateState) (ip : String) (e : RateEntry) :
    setEntry st ip e ip = some e :=
  if_pos rfl

/-- A rateLimit call never changes the entry of any other key. -/
theorem rateLimit_frame_other (st : RateState) (ip : String) (now : Nat) (k2 : String)
    (h : k2 ≠ ip) : (rateLimit st ip now).2 k2 = st k2 := by
  cases hst : st ip with
  | none =>
    rw [rateLimit_eq_new st ip now hst]
    exact if_neg h
  | some entry =>
    by_cases hw : now - entry.start > RATE_LIMIT_WINDOW
    · rw [rateLimit_eq_reset st ip now entry hst hw]
      exact if_neg h
    · by_cases hc : entry.count ≥ RATE_LIMIT
      · rw [rateLimit_eq_limited st ip now entry hst hw hc]
      · rw [rateLimit_eq_incr st ip now entry hst hw hc]
        exact if_neg h

/-- A rateLimit call reads and writes only the entry of its own key: two
maps agreeing at that key give the same result and the same new entry. -/
theorem rateLimit_congr (st1 st2 : RateState) (ip : String) (now : Nat)
    (h : st1 ip = st2 ip) :
    (rateLimit st1 ip now).1 = (rateLimit st2 ip now).1 ∧
    (rateLimit st1 ip now).2 ip = (rateLimit st2 ip now).2 ip := by
  cases hst : st1 ip with
  | none =>
    have hst2 : st2 ip = none := by
      rw [← h]
      exact hst
    rw [rateLimit_eq_new st1 ip now hst, rateLimit_eq_new st2 ip now hst2]
    exact ⟨rfl, (setEntry_self st1 ip ⟨1, now⟩).trans (setEntry_self st2 ip ⟨1, now⟩).symm⟩
  | some entry =>
    have hst2 : st2 ip = some entry := by
      rw [← h]
      exact hst
    by_cases hw : now - entry.start > RATE_LIMIT_WINDOW
    · rw [rateLimit_eq_reset st1 ip now entry hst hw,
        rateLimit_eq_reset st2 ip now entry hst2 hw]
      exact ⟨rfl, (setEntry_self st1 ip ⟨1, now⟩).trans (setEntry_self st2 ip ⟨1, now⟩).symm⟩
    · by_cases hc : entry.count ≥ RATE_LIMIT
      · rw [rateLimit_eq_limited st1 ip now entry hst hw hc,
          rateLimit_eq_limited st2 ip now entry hst2 hw hc]
        exact ⟨rfl, h⟩
      · rw [rateLimit_eq_incr st1 ip now entry hst hw hc,
          rateLimit_eq_incr st2 ip now entry hst2 hw hc]
        exact ⟨rfl, (setEntry_self st1 ip ⟨entry.count + 1, entry.start⟩).trans
          (setEntry_self st2 ip ⟨entry.count + 1, entry.start⟩).symm⟩

theorem resultsFor_cons_of_eq (k : String) (c : RLCall) (tr : List RLCall) (b : Bool)
    (bs : List Bool) (h : (c.ip == k) = true) :
    resultsFor k (c :: tr) (b :: bs) = b :: resultsFor k tr bs := by
  simp [resultsFor, List.zip_cons_cons, List.filter_cons, h]

theorem resultsFor_cons_of_ne (k : String) (c : RLCall) (tr : List RLCall) (b : Bool)
    (bs : List Bool) (h : (c.ip == k) = false) :
    resultsFor k (c :: tr) (b :: bs) = resultsFor k tr bs := by
  simp [resultsFor, List.zip_cons_cons, List.filter_cons, h]

theorem goodStateFor_empty (k : String) (tr : List RLCall) :
    goodStateFor k emptyRateState tr := by
  intro e hk
  exact absurd hk (by simp [emptyRateState])

/-- Dropping the pending call at the head keeps the budget invariant. -/
theorem goodStateFor_tail (k : String) (c : RLCall) (tr : List RLCall) (st : RateState)
    (hgood : goodStateFor k st (c :: tr)) : goodStateFor k st tr := by
  intro e hk
  have hbudget := hgood e hk
  rw [List.countP_cons] at hbudget
  omega

/-- A call of another client keeps the budget invariant of k: the k entry
is untouched and the pending k calls only shrink. -/
theorem goodStateFor_other (k : String) (c : RLCall) (tr : List RLCall) (st : RateState)
    (hip : c.ip ≠ k) (hgood : goodStateFor k st (c :: tr)) :
    goodStateFor k (rateLimit st c.ip c.time).2 tr := by
  intro e hk
  rw [rateLimit_frame_other st c.ip c.time k (fun h => hip h.symm)] at hk
  have hbudget := hgood e hk
  rw [List.countP_cons] at hbudget
  omega

/-- Creating or resetting the k entry at the time of the current k call
keeps the budget invariant for the remaining calls. -/
theorem goodStateFor_set_new (k : String) (c : RLCall) (tr : List RLCall) (st : RateState)
    (hip : c.ip = k)
    (hhd : ∀ x ∈ tr, c.time ≤ x.time)
    (hwin : windowCalls k c.time (c :: tr) ≤ RATE_LIMIT) :
    goodStateFor k (setEntry st c.ip ⟨1, c.time⟩) tr := by
  intro e hk
  rw [hip, setEntry_self, Option.some_inj] at hk
  rw [← hk]
  show 1 + tr.countP (fun x => decide (x.ip = k ∧ x.time ≤ c.time + RATE_LIMIT_WINDOW))
    ≤ RATE_LIMIT
  unfold windowCalls at hwin
  rw [List.countP_cons] at hwin
  have hc : (decide (c.ip = k ∧ c.time ≤ c.time ∧ c.time ≤ c.time + RATE_LIMIT_WINDOW))
      = true := decide_eq_true ⟨hip, le_refl _, Nat.le_add_right _ _⟩
  rw [hc, if_pos rfl] at hwin
  have hmono : tr.countP (fun x => decide (x.ip = k ∧ x.time ≤ c.time + RATE_LIMIT_WINDOW))
      ≤ tr.countP (fun x => decide (x.ip = k ∧ c.time ≤ x.time ∧ x.time ≤ c.time + RATE_LIMIT_WINDOW)) := by
    refine List.countP_mono_left (fun x hx hpx => ?_)
    rw [decide_eq_true_iff] at hpx ⊢
    exact ⟨hpx.1, hhd x hx, hpx.2⟩
  omega

/-- Incrementing the k entry inside its window keeps the budget invariant
for the remaining calls. -/
theorem goodStateFor_set_incr (k : String) (c : RLCall) (tr : List RLCall) (st : RateState)
    (entry : RateEntry) (hip : c.ip = k) (hst : st k = some entry)
    (hin : c.time ≤ entry.start + RATE_LIMIT_WINDOW)
    (hgood : goodStateFor k st (c :: tr)) :
    goodStateFor k (setEntry st c.ip ⟨entry.count + 1, entry.start⟩) tr := by
  intro e hk
  rw [hip, setEntry_self, Option.some_inj] at hk
  rw [← hk]
  show entry.count + 1
      + tr.countP (fun x => decide (x.ip = k ∧ x.time ≤ entry.start + RATE_LIMIT_WINDOW))
    ≤ RATE_LIMIT
  have hbudget := hgood entry hst
  rw [List.countP_cons] at hbudget
  have hc : (decide (c.ip = k ∧ c.time ≤ entry.start + RATE_LIMIT_WINDOW)) = true :=
    decide_eq_true ⟨hip, hin⟩
  rw [hc, if_pos rfl] at hbudget
  omega

/-- A limited k call is impossible under the budget invariant of k: its
own call would overflow the budget of the k entry. -/
theorem no_limited_step_for (k : String) (c : RLCall) (tr : List RLCall) (st : RateState)
    (entry : RateEntry) (hip : c.ip = k) (hst : st k = some entry)
    (hw : ¬ c.time - entry.start > RATE_LIMIT_WINDOW)
    (hgood : goodStateFor k st (c :: tr)) :
    ¬ entry.count ≥ RATE_LIMIT := by
  intro hc
  have hbudget := hgood entry hst
  rw [List.countP_cons] at hbudget
  have hin : (decide (c.ip = k ∧ c.time ≤ entry.start + RATE_LIMIT_WINDOW)) = true :=
    decide_eq_true ⟨hip, by omega⟩
  rw [hin, if_pos rfl] at hbudget
  omega

/-- Main per-client safety lemma for the fixed-window limiter: under the
budget invariant of client k, a monotone trace in which k has at most
RATE_LIMIT calls inside every closed 60-second window never limits a call
of k, whatever the other clients do. -/
theorem run_no_limit_for (k : String) (tr : List RLCall) (st : RateState)
    (hmono : timesMono tr)
    (hwin : ∀ t0, windowCalls k t0 tr ≤ RATE_LIMIT)
    (hgood : goodStateFor k st tr) :
    ∀ p ∈ tr.zip (rateLimitRun st tr).1, p.1.ip = k → p.2 = false := by
  induction tr generalizing st with
  | nil =>
    intro p hp
    simp [rateLimitRun] at hp
  | cons c tr ih =>
    rw [timesMono, List.pairwise_cons] at hmono
    obtain ⟨hhd, hmono2⟩ := hmono
    have hwin2 : ∀ t0, windowCalls k t0 tr ≤ RATE_LIMIT := by
      intro t0
      refine le_trans ?_ (hwin t0)
      unfold windowCalls
      rw [List.countP_cons]
      omega
    rw [rateLimitRun_cons]
    intro p hp
    rw [List.zip_cons_cons, List.mem_cons] at hp
    rcases hp with rfl | hp2
    · intro hip
      have hipc : c.ip = k := hip
      show (rateLimit st c.ip c.time).1 = false
      rw [hipc]
      cases hst : st k with
      | none => rw [rateLimit_eq_new st k c.time hst]
      | some entry =>
        by_cases hw : c.time - entry.start > RATE_LIMIT_WINDOW
        · rw [rateLimit_eq_reset st k c.time entry hst hw]
        · have hc := no_limited_step_for k c tr st entry hipc hst hw hgood
          rw [rateLimit_eq_incr st k c.time entry hst hw hc]
    · intro hip
      by_cases hck : c.ip = k
      · cases hst : st k with
        | none =>
          have hstep : rateLimit st c.ip c.time = (false, setEntry st c.ip ⟨1, c.time⟩) := by
            rw [hck]
            exact rateLimit_eq_new st k c.time hst
          rw [hstep] at hp2
          exact ih (setEntry st c.ip ⟨1, c.time⟩) hmono2 hwin2
            (goodStateFor_set_new k c tr st hck hhd (hwin c.time)) p hp2 hip
        | some entry =>
          by_cases hw : c.time - entry.start > RATE_LIMIT_WINDOW
          · have hstep : rateLimit st c.ip c.time
                = (false, setEntry st c.ip ⟨1, c.time⟩) := by
              rw [hck]
              exact rateLimit_eq_reset st k c.time entry hst hw
            rw [hstep] at hp2
            exact ih (setEntry st c.ip ⟨1, c.time⟩) hmono2 hwin2
              (goodStateFor_set_new k c tr st hck hhd (hwin c.time)) p hp2 hip
          · by_cases hcnt : entry.count ≥ RATE_LIMIT
            · have hstep : rateLimit st c.ip c.time = (true, st) := by
                rw [hck]
                exact rateLimit_eq_limited st k c.time entry hst hw hcnt
              rw [hstep] at hp2
              exact ih st hmono2 hwin2 (goodStateFor_tail k c tr st hgood) p hp2 hip
            · have hstep : rateLimit st c.ip c.time
                  = (false, setEntry st c.ip ⟨entry.count + 1, entry.start⟩) := by
                rw [hck]
                exact rateLimit_eq_incr st k c.time entry hst hw hcnt
              rw [hstep] at hp2
              have hin : c.time ≤ entry.start + RATE_LIMIT_WINDOW := by omega
              exact ih (setEntry st c.ip ⟨entry.count + 1, entry.start⟩) hmono2 hwin2
                (goodStateFor_set_incr k c tr st entry hck hst hin hgood) p hp2 hip
      · exact ih (rateLimit st c.ip c.time).2 hmono2 hwin2
          (goodStateFor_other k c tr st hck hgood) p hp2 hip

/-- Running calls of one client, all inside the entry window and within
budget, increments the count once per call and limits none of them. -/
theorem run_incr (k : String) (t0 : Nat) (ts : List Nat) (st : RateState) (c : Nat)
    (hst : st k = some ⟨c, t0⟩)
    (hts : ∀ t ∈ ts, t ≤ t0 + RATE_LIMIT_WINDOW)
    (hlen : c + ts.length ≤ RATE_LIMIT) :
    (rateLimitRun st (ts.map (fun t => ⟨k, t⟩))).1 = List.replicate ts.length false ∧
    (rateLimitRun st (ts.map (fun t => ⟨k, t⟩))).2 k = some ⟨c + ts.length, t0⟩ := by
  induction ts generalizing st c with
  | nil => exact ⟨rfl, hst⟩
  | cons t ts ih =>
    have hw : ¬ t - t0 > RATE_LIMIT_WINDOW := by
      have := hts t (List.mem_cons_self t ts)
      omega
    have hc : ¬ c ≥ RATE_LIMIT := by
      simp only [List.length_cons] at hlen
      omega
    have hstep : rateLimit st k t = (false, setEntry st k ⟨c + 1, t0⟩) :=
      rateLimit_eq_incr st k t ⟨c, t0⟩ hst hw hc
    have hst2 : (setEntry st k ⟨c + 1, t0⟩) k = some ⟨c + 1, t0⟩ := by
      unfold setEntry
      rw [if_pos rfl]
    have hts2 : ∀ x ∈ ts, x ≤ t0 + RATE_LIMIT_WINDOW :=
      fun x hx => hts x (List.mem_cons_of_mem t hx)
    have hlen2 : (c + 1) + ts.length ≤ RATE_LIMIT := by
      simp only [List.length_cons] at hlen
      omega
    obtain ⟨ih1, ih2⟩ := ih (setEntry st k ⟨c + 1, t0⟩) (c + 1) hst2 hts2 hlen2
    simp only [List.map_cons, rateLimitRun_cons, hstep]
    constructor
    · rw [ih1]
      rfl
    · rw [ih2]
      have harith : c + 1 + ts.length = c + (ts.length + 1) := by omega
      rw [harith]
      rfl

/-- Projection of a run onto one client: because every step reads and
writes only the entry of its own key, the results of the k calls of a run
over any interleaved trace equal the results of running the k calls alone,
from any map agreeing at k; the final k entries agree as well. -/
theorem run_project (k : String) (tr : List RLCall) :
    ∀ st1 st2 : RateState, st1 k = st2 k →
      resultsFor k tr (rateLimitRun st1 tr).1
        = (rateLimitRun st2 (tr.filter (fun c => c.ip == k))).1 ∧
      (rateLimitRun st1 tr).2 k = (rateLimitRun st2 (tr.filter (fun c => c.ip == k))).2 k := by
  induction tr with
  | nil =>
    intro st1 st2 h
    exact ⟨rfl, h⟩
  | cons c tr ih =>
    intro st1 st2 h
    by_cases hip : c.ip = k
    · have hq : (c.ip == k) = true := beq_iff_eq.mpr hip
      have hfc : (c :: tr).filter (fun x => x.ip == k)
          = c :: tr.filter (fun x => x.ip == k) := by
        simp [List.filter_cons, hq]
      have hkey : st1 c.ip = st2 c.ip := by
        rw [hip]
        exact h
      have hcg := rateLimit_congr st1 st2 c.ip c.time hkey
      have hcg2 : (rateLimit st1 c.ip c.time).2 k = (rateLimit st2 c.ip c.time).2 k := by
        rw [hip]
        have h2 := hcg.2
        rw [hip] at h2
        exact h2
      have htails := ih (rateLimit st1 c.ip c.time).2 (rateLimit st2 c.ip c.time).2 hcg2
      rw [hfc, rateLimitRun_cons st1 c tr,
        rateLimitRun_cons st2 c (tr.filter (fun x => x.ip == k))]
      constructor
      · rw [resultsFor_cons_of_eq k c tr _ _ hq, htails.1, hcg.1]
      · exact htails.2
    · have hq : (c.ip == k) = false := by
        rw [beq_eq_false_iff_ne]
        exact hip
      have hq2 : ¬((c.ip == k) = true) := by
        rw [hq]
        exact Bool.false_ne_true
      have hfc : (c :: tr).filter (fun x => x.ip == k)
          = tr.filter (fun x => x.ip == k) := by
        simp [List.filter_cons, hq]
      have hframe : (rateLimit st1 c.ip c.time).2 k = st1 k :=
        rateLimit_frame_other st1 c.ip c.time k (fun he => hip he.symm)
      rw [hfc, rateLimitRun_cons st1 c tr]
      rw [resultsFor_cons_of_ne k c tr _ _ hq]
      exact ih (rateLimit st1 c.ip c.time).2 st2 (hframe.trans h)

/-- A client alone: its first call opens the window, 99 further calls
inside the window are allowed, and with the count full one more call
inside the window is limited. -/
theorem lone_client_101 (k : String) (t0 : Nat) (ts : List Nat)
    (hlen : ts.length = RATE_LIMIT)
    (hts : ∀ t ∈ ts, t ≤ t0 + RATE_LIMIT_WINDOW) :
    (rateLimitRun emptyRateState ((t0 :: ts).map (fun t => ⟨k, t⟩))).1
      = List.replicate RATE_LIMIT false ++ [true] := by
  have hne : ts ≠ [] := by
    intro h
    rw [h] at hlen
    simp at hlen
    exact absurd hlen.symm (by decide)
  have hsplit : ts.dropLast ++ [ts.getLast hne] = ts := List.dropLast_append_getLast hne
  have hlenA : ts.dropLast.length = RATE_LIMIT - 1 := by
    rw [List.length_dropLast, hlen]
  have hstep1 : rateLimit emptyRateState k t0 = (false, setEntry emptyRateState k ⟨1, t0⟩) :=
    rateLimit_eq_new emptyRateState k t0 rfl
  have hst1 : (setEntry emptyRateState k ⟨1, t0⟩) k = some ⟨1, t0⟩ := if_pos rfl
  have htsA : ∀ t ∈ ts.dropLast, t ≤ t0 + RATE_LIMIT_WINDOW :=
    fun t ht => hts t ((List.dropLast_sublist ts).subset ht)
  have hlen1 : 1 + ts.dropLast.length ≤ RATE_LIMIT := by
    rw [hlenA]
    have : (1 : Nat) ≤ RATE_LIMIT := by decide
    omega
  obtain ⟨hr1, hr2⟩ := run_incr k t0 ts.dropLast (setEntry emptyRateState k ⟨1, t0⟩) 1
    hst1 htsA hlen1
  rw [hlenA] at hr1 hr2
  have hcount : 1 + (RATE_LIMIT - 1) = RATE_LIMIT := by decide
  rw [hcount] at hr2
  have htl : ts.getLast hne ∈ ts := List.getLast_mem hne
  have hwl : ¬ ts.getLast hne - t0 > RATE_LIMIT_WINDOW := by
    have := hts (ts.getLast hne) htl
    omega
  have hlast := rateLimit_eq_limited
    (rateLimitRun (setEntry emptyRateState k ⟨1, t0⟩)
      (ts.dropLast.map (fun t => ⟨k, t⟩))).2
    k (ts.getLast hne) ⟨RATE_LIMIT, t0⟩ hr2 hwl (le_refl _)
  rw [← hsplit]
  simp only [List.map_cons, List.map_append, List.map_nil, rateLimitRun_cons,
    rateLimitRun_append, hstep1, hr1, hlast, rateLimitRun]
  rw [← List.cons_append, ← List.replicate_succ]
  have hsucc : RATE_LIMIT - 1 + 1 = RATE_LIMIT := by decide
  rw [hsucc]

/-! ## Middleware lemmas -/

/-- A secure-transport request whose key is missing or not in the allow
list is answered 401 with the rate map untouched. -/
theorem middleware_401 (a : Option String) (st : RateState) (now : Nat) (req : MwRequest)
    (hp : req.xForwardedProto = some "https")
    (hk : req.xApiKey = none ∨ ∀ s, req.xApiKey = some s → some s ∉ VALID_API_KEYS a) :
    middleware a st now req = (.response "Unauthorized" 401, st) := by
  have hp2 : ¬(req.xForwardedProto ≠ some "https") := fun h => h hp
  have hcond : (!(truthy req.xApiKey) || !((VALID_API_KEYS a).contains req.xApiKey)) = true := by
    cases hka : req.xApiKey with
    | none => rfl
    | some s =>
      by_cases hs : s = ""
      · subst hs
        simp [truthy]
      · rcases hk with hk0 | hk1
        · rw [hka] at hk0
          exact absurd hk0 (by simp)
        · have hmem : some s ∉ VALID_API_KEYS a := hk1 s hka
          have hcf : ((VALID_API_KEYS a).contains (some s)) = false := by simpa using hmem
          rw [hcf]
          simp
  unfold middleware
  rw [if_neg hp2, if_pos hcond]

/-! ## Claim theorems -/

/-- C10. A limited rate-limiter call leaves the whole map unchanged, and
any call leaves every key other than the called one unchanged. -/
theorem c10_rate_limit_frame :
    ∀ (st : RateState) (k : String) (now : Nat),
      ((rateLimit st k now).1 = true → (rateLimit st k now).2 = st) ∧
      (∀ k2, k2 ≠ k → (rateLimit st k now).2 k2 = st k2) := by
  intro st k now
  cases hst : st k with
  | none =>
    rw [rateLimit_eq_new st k now hst]
    constructor
    · intro h
      simp at h
    · intro k2 hk2
      exact if_neg hk2
  | some entry =>
    by_cases hw : now - entry.start > RATE_LIMIT_WINDOW
    · rw [rateLimit_eq_reset st k now entry hst hw]
      constructor
      · intro h
        simp at h
      · intro k2 hk2
        exact if_neg hk2
    · by_cases hc : entry.count ≥ RATE_LIMIT
      · rw [rateLimit_eq_limited st k now entry hst hw hc]
        exact ⟨fun _ => rfl, fun k2 _ => rfl⟩
      · rw [rateLimit_eq_incr st k now entry hst hw hc]
        constructor
        · intro h
          simp at h
        · intro k2 hk2
          exact if_neg hk2

/-- C6. In every state reachable from the empty map, every entry count is
at most RATE_LIMIT, and a call that finds a full count inside the window is
limited without incrementing (the map is returned as is). -/
theorem c6_count_never_exceeds_limit :
    (∀ (tr : List RLCall) (k : String) (e : RateEntry),
        (rateLimitRun emptyRateState tr).2 k = some e → e.count ≤ RATE_LIMIT) ∧
    (∀ (st : RateState) (k : String) (now : Nat) (e : RateEntry),
        st k = some e → now - e.start ≤ RATE_LIMIT_WINDOW → e.count ≥ RATE_LIMIT →
        rateLimit st k now = (true, st)) := by
  constructor
  · intro tr k e hk
    have hb : countBounded emptyRateState := by
      intro k2 e2 h2
      exact absurd h2 (by simp [emptyRateState])
    exact rateLimitRun_preserves_countBounded tr emptyRateState hb k e hk
  · intro st k now e hst hw hc
    exact rateLimit_eq_limited st k now e hst (by omega) hc

/-- C2. A request not declaring secure transport is rejected 403 with the
fixed body before any later check runs: the result holds for every key
header, every configured key and every rate-map state, and the rate map is
returned untouched. -/
theorem c2_insecure_transport_rejected_first (allowedApiKey : Option String)
    (st : RateState) (now : Nat) (req : MwRequest)
    (h : req.xForwardedProto ≠ some "https") :
    middleware allowedApiKey st now req = (.response "HTTPS required" 403, st) := by
  unfold middleware
  rw [if_pos h]

/-- Witness for C2: a request with a valid key and a rate entry already at
the limit is still answered 403 for insecure transport, map untouched. -/
theorem c2_insecure_transport_witness :
    middleware (some "k1") (setEntry emptyRateState "9.9.9.9" ⟨100, 0⟩) 5
      ⟨some "http", some "k1", some "9.9.9.9", none⟩
      = (.response "HTTPS required" 403, setEntry emptyRateState "9.9.9.9" ⟨100, 0⟩) :=
  c2_insecure_transport_rejected_first (some "k1")
    (setEntry emptyRateState "9.9.9.9" ⟨100, 0⟩) 5
    ⟨some "http", some "k1", some "9.9.9.9", none⟩ (by decide)

/-- Counterexample for C5 as stated: a request with no credential but an
insecure transport header receives the 403 transport rejection, not the
401 unauthorized one, so the credential rejection does not hold regardless
of all other headers. -/
theorem c5_counterexample :
    (middleware (some "secret-key") emptyRateState 0 ⟨some "http", none, none, none⟩).1
      ≠ MwResult.response "Unauthorized" 401 := by
  decide

/-- C5 (amended). For every request that passes the transport check,
a missing credential header or a presented key outside the allow list is
answered 401, regardless of the remaining headers, the configured key and
the rate-map state, which is returned untouched. -/
theorem c5_unauthorized_regardless (a : Option String) (st : RateState) (now : Nat)
    (req : MwRequest) (hp : req.xForwardedProto = some "https")
    (hk : req.xApiKey = none ∨ ∀ s, req.xApiKey = some s → some s ∉ VALID_API_KEYS a) :
    middleware a st now req = (.response "Unauthorized" 401, st) :=
  middleware_401 a st now req hp hk

/-- Witness for C5: a wrong key over https is answered 401. -/
theorem c5_unauthorized_witness :
    middleware (some "secret") emptyRateState 0 ⟨some "https", some "wrong", none, none⟩
      = (.response "Unauthorized" 401, emptyRateState) := by
  refine c5_unauthorized_regardless (some "secret") emptyRateState 0
    ⟨some "https", some "wrong", none, none⟩ rfl (Or.inr ?_)
  intro s hs
  have hs2 : "wrong" = s := by injection hs
  subst hs2
  decide

/-- Counterexample for C9 as stated: with no configured key, a request
presenting a non-empty key but an insecure transport header is rejected
403, not 401, so not every request is rejected with 401. -/
theorem c9_counterexample :
    (middleware none emptyRateState 0 ⟨some "http", some "any-key", none, none⟩).1
      ≠ MwResult.response "Unauthorized" 401 := by
  decide

/-- C9 (amended). With ALLOWED_API_KEY unset the allow list is the single
undefined entry; every request that declares secure transport - whatever
key it presents, including any non-empty one - is rejected 401, and no
request whatsoever passes the middleware. -/
theorem c9_unset_key_rejects_all :
    ∀ (st : RateState) (now : Nat) (req : MwRequest),
      (req.xForwardedProto = some "https" →
        middleware none st now req = (.response "Unauthorized" 401, st)) ∧
      (middleware none st now req).1 ≠ MwResult.next := by
  intro st now req
  constructor
  · intro hp
    refine middleware_401 none st now req hp (Or.inr ?_)
    intro s hs
    simp [VALID_API_KEYS]
  · by_cases hp : req.xForwardedProto ≠ some "https"
    · unfold middleware
      rw [if_pos hp]
      simp
    · have hcond : (!(truthy req.xApiKey)
          || !((VALID_API_KEYS none).contains req.xApiKey)) = true := by
        cases hka : req.xApiKey with
        | none => rfl
        | some s => simp [truthy, VALID_API_KEYS]
      unfold middleware
      rw [if_neg hp, if_pos hcond]
      simp

/-- Counterexample for C3 as stated: for the Notion Fetch tool, an adapter
failure with message boom is rendered as two content blocks - the fixed
title and the raw message - not as the single block Error: boom. -/
theorem c3_counterexample :
    (notionFetchHandler (fetchNotionContent (Except.error "boom") (Except.ok []))).content
        = ["Error fetching Notion page", "boom"] ∧
    (notionFetchHandler (fetchNotionContent (Except.error "boom") (Except.ok []))).content
        ≠ ["Error: boom"] := by
  constructor
  · rfl
  · decide

/-- C3 (amended). For every registered tool except Notion Fetch and Notion
List Databases, an adapter-level failure with non-empty message m yields
the single content block Error: m with the message verbatim and no cursor;
the Notion Fetch tool instead renders the failure as two blocks, the fixed
title Error fetching Notion page and the verbatim message; and every
registered tool is answered over HTTP 200. -/
theorem c3_adapter_failure_rendering :
    (∀ f ∈ failureRenderings, ∀ m : String, m ≠ "" →
        f m = { content := ["Error: " ++ m], nextCursor := none }) ∧
    (∀ m : String, m ≠ "" →
        notionFetchHandler (fetchNotionContent (Except.error m) (Except.ok []))
          = { content := ["Error fetching Notion page", m], nextCursor := none }) ∧
    (∀ invocationName ∈ toolNames, ∀ run : String → ToolResult,
        (dispatch invocationName run).status = 200) := by
  refine ⟨?_, ?_, ?_⟩
  · intro f hf m hm
    have hbe : (m == "") = false := by simpa using hm
    simp only [failureRenderings, List.mem_cons, List.not_mem_nil, or_false] at hf
    rcases hf with rfl|rfl|rfl|rfl|rfl|rfl|rfl|rfl|rfl|rfl|rfl|rfl|rfl|rfl|rfl|rfl|rfl|rfl|rfl|rfl|rfl|rfl|rfl|rfl|rfl
    all_goals
      simp [notionListEntriesHandler, listNotionDatabaseEntries, notionQueryHandler,
        queryNotionDatabase, notionFetchPageContentHandler, fetchNotionPageContent,
        notionGetSchemaHandler, getNotionDatabaseSchema, googdriveListDocsHandler,
        listGoogleDocs, googdriveSearchDocsHandler, searchGoogleDocs,
        googdriveDocMetadataHandler, fetchGoogleDocMetadata, googdriveExportTextHandler,
        exportGoogleDocAsText, driveListFilesHandler, listDriveFiles,
        driveSearchFilesHandler, searchDriveFiles, driveGetMetadataHandler,
        getDriveFileMetadata, driveDownloadFileHandler, downloadDriveFile,
        driveCreateFileHandler, createDriveFile, driveUpdateFileHandler, updateDriveFile,
        driveDeleteFileHandler, deleteDriveFile, driveListFoldersHandler, listDriveFolders,
        driveShareFileHandler, shareDriveFile, driveListRevisionsHandler,
        listDriveFileRevisions, googdriveCopyFileHandler, copyDriveFile,
        googdocsUpdateContentHandler, updateGoogleDocContent, githubListReposHandler,
        githubReadmeHandler, githubFileHandler, webSearchHandler, webSearch,
        searchCompanyCultureHandler, searchCompanyCulture, truthy, jsErrStr, hm, hbe]
  · intro m hm
    simp [notionFetchHandler, fetchNotionContent, jsErrStr, hm]
  · intro invocationName hn run
    have hc : toolNames.contains invocationName = true := by simpa using hn
    unfold dispatch
    rw [if_pos hc]

/-- Counterexample for C4 as stated: the Notion List Databases handler on
an adapter success with zero results produces an empty content sequence,
not a no-results block. -/
theorem c4_counterexample :
    (notionListDatabasesHandler (listNotionDatabases (Except.ok []))).content = [] := rfl

/-- C4 (amended). On success these handlers emit exactly one block per
adapter result, so an adapter returning zero results yields an empty
content sequence; no no-results block exists and the never-empty invariant
fails on the code. -/
theorem c4_content_one_block_per_result :
    (∀ hits : List NotionDbHit,
        (notionListDatabasesHandler (listNotionDatabases (Except.ok hits))).content.length
          = hits.length) ∧
    (∀ results : List SearchResult,
        (webSearchHandler (webSearch (Except.ok (some results)))).content.length
          = results.length) ∧
    (webSearchHandler (webSearch (Except.ok none))).content = [] := by
  refine ⟨?_, ?_, rfl⟩
  · intro hits
    simp [notionListDatabasesHandler, listNotionDatabases]
  · intro results
    simp [webSearchHandler, webSearch]

/-- C7. For a successful paginated query whose raw cursor is not the empty
string, the envelope cursor of the Notion List Database Entries tool equals
the adapter result cursor (passed through unchanged); it is absent exactly
when the adapter reports no further pages (has_more false or no cursor);
and when present it is the raw cursor the backend returned. -/
theorem c7_cursor_passthrough (resp : NotionQueryResponse)
    (hne : resp.next_cursor ≠ some "") :
    ((notionListEntriesHandler (listNotionDatabaseEntries (Except.ok resp))).nextCursor
        = (listNotionDatabaseEntries (Except.ok resp)).nextCursor) ∧
    (((notionListEntriesHandler (listNotionDatabaseEntries (Except.ok resp))).nextCursor
        = none) ↔ (resp.has_more = false ∨ resp.next_cursor = none)) ∧
    (∀ cur, (notionListEntriesHandler (listNotionDatabaseEntries (Except.ok resp))).nextCursor
        = some cur → resp.next_cursor = some cur) := by
  have hH : (notionListEntriesHandler (listNotionDatabaseEntries (Except.ok resp))).nextCursor
      = (if resp.has_more && truthy resp.next_cursor then resp.next_cursor else none) := rfl
  refine ⟨hH, ?_, ?_⟩
  · rw [hH]
    cases hb : resp.has_more with
    | false => simp
    | true =>
      cases hnc : resp.next_cursor with
      | none => simp [truthy]
      | some s =>
        have hs : ¬(s = "") := by
          intro h
          subst h
          exact hne hnc
        simp [truthy, hs]
  · intro cur
    rw [hH]
    cases hb : resp.has_more with
    | false => simp
    | true =>
      cases hnc : resp.next_cursor with
      | none => simp [truthy]
      | some s =>
        have hs : ¬(s = "") := by
          intro h
          subst h
          exact hne hnc
        simp [truthy, hs]

/-- Witness for C7 at a concrete paginated response. -/
theorem c7_cursor_witness :
    (notionListEntriesHandler (listNotionDatabaseEntries
        (Except.ok ⟨["entry-1"], true, some "cursor-1"⟩))).nextCursor
      = (listNotionDatabaseEntries (Except.ok ⟨["entry-1"], true, some "cursor-1"⟩)).nextCursor :=
  (c7_cursor_passthrough ⟨["entry-1"], true, some "cursor-1"⟩ (by decide)).1

/-- C8. Dispatching a name outside the registry yields HTTP 200 with a
single content block that starts with Error: and names the tool, and no
cursor. -/
theorem c8_unknown_tool (invocationName : String) (run : String → ToolResult)
    (h : invocationName ∉ toolNames) :
    (dispatch invocationName run).status = 200 ∧
    (dispatch invocationName run).result.content
      = ["Error: " ++ ("Unknown tool: " ++ invocationName)] ∧
    (dispatch invocationName run).result.nextCursor = none := by
  have hc : toolNames.contains invocationName = false := by simpa using h
  have hc2 : ¬(toolNames.contains invocationName = true) := by
    rw [hc]
    exact Bool.false_ne_true
  unfold dispatch
  rw [if_neg hc2]
  exact ⟨rfl, rfl, rfl⟩

/-- Witness for C8 at a concrete unregistered name. -/
theorem c8_unknown_tool_witness :
    (dispatch "Nonexistent Tool" (fun _ => { content := [], nextCursor := none })).status
        = 200 ∧
    (dispatch "Nonexistent Tool"
        (fun _ => { content := [], nextCursor := none })).result.content
      = ["Error: " ++ ("Unknown tool: " ++ "Nonexistent Tool")] ∧
    (dispatch "Nonexistent Tool"
        (fun _ => { content := [], nextCursor := none })).result.nextCursor = none :=
  c8_unknown_tool "Nonexistent Tool" (fun _ => { content := [], nextCursor := none })
    (by decide)

/-- C1. Per client. Part one: from the empty map, for any client k of a
monotone trace (all other clients unconstrained), if k issues at most 100
calls inside every closed 60-second window then no call of k is limited.
Part two: a client whose calls in the trace are exactly 101 calls inside
the 60-second window opened by its first call - with any other clients
interleaved anywhere - sees its first 100 calls allowed and its 101st call
limited. -/
theorem c1_hundred_calls_per_window :
    (∀ (k : String) (tr : List RLCall), timesMono tr →
        (∀ t0, windowCalls k t0 tr ≤ RATE_LIMIT) →
        ∀ b ∈ resultsFor k tr (rateLimitRun emptyRateState tr).1, b = false) ∧
    (∀ (k : String) (tr : List RLCall) (t0 : Nat) (ts : List Nat),
        tr.filter (fun c => c.ip == k) = (t0 :: ts).map (fun t => ⟨k, t⟩) →
        ts.length = RATE_LIMIT →
        (∀ t ∈ ts, t ≤ t0 + RATE_LIMIT_WINDOW) →
        resultsFor k tr (rateLimitRun emptyRateState tr).1
          = List.replicate RATE_LIMIT false ++ [true]) := by
  constructor
  · intro k tr hmono hwin b hb
    unfold resultsFor at hb
    obtain ⟨p, hpf, hb2⟩ := List.mem_map.mp hb
    obtain ⟨hpz, hpk⟩ := List.mem_filter.mp hpf
    subst hb2
    exact run_no_limit_for k tr emptyRateState hmono hwin (goodStateFor_empty k tr)
      p hpz (beq_iff_eq.mp hpk)
  · intro k tr t0 ts hfilter hlen hts
    have hproj := run_project k tr emptyRateState emptyRateState rfl
    rw [hproj.1, hfilter]
    exact lone_client_101 k t0 ts hlen hts

end Gateway